import Mathlib

/-!
Shallow embedding of the repository source file `src/s3_glacier.py`
(class `S3GlacierClient` and its methods), together with theorems that
settle the specification claims about it.

Modelling conventions:
- Python dicts of restore parameters become lookup functions
  `String → Option ParamValue`; the dict-splat merge
  `\x7b**defaults, **overrides\x7d` becomes `mergeRestoreParams`.
- The remote store is an external collaborator.  Its listing behaviour is
  the sequence of responses returned by successive `list_objects_v2`
  calls; its restore behaviour is a function from the parameters actually
  passed to the result of the call (an HTTP response, or a raised
  `ClientError` with a code and an error response); its head-object
  behaviour is the response header map; its per-object restore-status
  checks are a Boolean sequence indexed by attempt number.
- Raised exceptions become `Except` errors.  The unreachable-name slip in
  the source (`e.response` referenced on the `status > 400` logging line
  while `e` is unbound there) is modelled faithfully as the constructor
  `RestoreRaise.unboundLocalError`.
- The polling loop of `are_objects_restored` can diverge, so it is
  embedded with explicit fuel and an event trace recording every status
  check and every sleep.
-/

namespace S3Glacier

/-- A value stored in a restore-parameters record, as used by the CLI:
integers (Days), strings (Tier) and nested records (GlacierJobParameters). -/
inductive ParamValue where
  | intVal (n : Int)
  | strVal (s : String)
  | dictVal (entries : List (String × ParamValue))

/-- A Python dict of restore parameters, viewed extensionally as a
key-to-value lookup. -/
def RestoreParams : Type := String → Option ParamValue

/-- The empty dict, standing for the Python literal used by
`restore_params or \x7b\x7d`. -/
def emptyRestoreParams : RestoreParams := fun _ => none

/-- The dict-splat merge `\x7b**d, **p\x7d` from lines 61 and 88 of the
source: every key of `p` keeps the value from `p`, every other key keeps
the value from `d`. -/
def mergeRestoreParams (d p : RestoreParams) : RestoreParams :=
  fun k =>
    match p k with
    | some v => some v
    | none => d k

/-- An object record as yielded by the listing; the source only ever reads
its Key field. -/
structure S3Object where
  key : String
deriving DecidableEq

/-- One response of the list_objects_v2 call: the Contents page and the
IsTruncated flag.  The NextContinuationToken is opaque; successive
responses of the store are modelled as a list of pages consumed in
request order. -/
structure ListPage where
  contents : List S3Object
  isTruncated : Bool
deriving DecidableEq

/-- `list_all_objects_from_bucket` (source lines 50 to 58): yield the
Contents of each response, and keep requesting the next page exactly
while IsTruncated holds. -/
def list_all_objects_from_bucket : List ListPage → List S3Object
  | [] => []
  | page :: rest =>
      page.contents ++
        (if page.isTruncated then list_all_objects_from_bucket rest else [])

/-- A successful (non-raising) response of the restore_object store call:
the ResponseMetadata HTTPStatusCode plus the rest of the response,
left opaque. -/
structure StoreResponse where
  httpStatusCode : Nat
  body : String
deriving DecidableEq

/-- What the store does on one restore_object call: either it returns a
response, or it raises a ClientError carrying an error code and the
error response payload. -/
inductive RestoreCallResult where
  | response (r : StoreResponse)
  | clientError (code : String) (errorResponse : String)
deriving DecidableEq

/-- The exceptions `restore_object` can raise:
`RestoreException` and `RestoreInProgressException` carry the store
response they were constructed with; `unboundLocalError` is the
UnboundLocalError raised on the `status > 400` path, where the logging
call on line 71 evaluates `e.response` although `e` is an unbound local
there, so control never reaches the `raise RestoreException` on line 73. -/
inductive RestoreRaise where
  | restoreException (response : String)
  | restoreInProgressException (response : String)
  | unboundLocalError
deriving DecidableEq

/-- The body of `restore_object` after the parameter merge (source lines
62 to 85), as a function of the store call result. -/
def classifyRestoreCall : RestoreCallResult → Except RestoreRaise Unit
  | .response r =>
      if r.httpStatusCode > 400 then
        -- line 68-72: `self.info(..., e.response)` with `e` unbound
        .error .unboundLocalError
      else
        .ok ()
  | .clientError code errorResponse =>
      if code ≠ "RestoreAlreadyInProgress" then
        .error (.restoreInProgressException errorResponse)
      else
        .error (.restoreException errorResponse)

/-- `restore_object` (source lines 60 to 85): merge the default parameters
with the per-call overrides (`restore_params or \x7b\x7d`, override
wins), issue the store call with the merged parameters, and classify the
outcome. -/
def restore_object (defaults : RestoreParams) (params : Option RestoreParams)
    (store : RestoreParams → RestoreCallResult) : Except RestoreRaise Unit :=
  classifyRestoreCall (store (mergeRestoreParams defaults (params.getD emptyRestoreParams)))

/-- The three outcome tags of the data model. -/
inductive RestoreOutcome where
  | successful
  | restoreInProgress
  | error
deriving DecidableEq

/-- The outcome tag a store call result produces under
`classifyRestoreCall`, or `none` when the call does not produce any of
the three tags (the UnboundLocalError path). -/
def restoreOutcomeOf (r : RestoreCallResult) : Option RestoreOutcome :=
  match classifyRestoreCall r with
  | .ok _ => some .successful
  | .error (.restoreInProgressException _) => some .restoreInProgress
  | .error (.restoreException _) => some .error
  | .error .unboundLocalError => none

/-- The aggregate result dict of `restore_objects_from_bucket`, with its
three buckets in listing order. -/
structure BulkRestoreResults where
  successful : List S3Object
  restore_in_progress : List S3Object
  error : List S3Object
deriving DecidableEq

/-- The per-object loop of `restore_objects_from_bucket` (source lines 91
to 99): call `restore_object` with the pre-merged parameters, catch
RestoreInProgressException and RestoreException into the matching
buckets; any other exception escapes, discarding the accumulated
results. -/
def restoreObjectsLoop (defaults merged : RestoreParams)
    (store : S3Object → RestoreParams → RestoreCallResult) :
    List S3Object → Except RestoreRaise BulkRestoreResults
  | [] => .ok ⟨[], [], []⟩
  | obj :: rest =>
      match restore_object defaults (some merged) (store obj) with
      | .ok _ =>
          match restoreObjectsLoop defaults merged store rest with
          | .ok r => .ok ⟨obj :: r.successful, r.restore_in_progress, r.error⟩
          | .error ex => .error ex
      | .error (.restoreInProgressException _) =>
          match restoreObjectsLoop defaults merged store rest with
          | .ok r => .ok ⟨r.successful, obj :: r.restore_in_progress, r.error⟩
          | .error ex => .error ex
      | .error (.restoreException _) =>
          match restoreObjectsLoop defaults merged store rest with
          | .ok r => .ok ⟨r.successful, r.restore_in_progress, obj :: r.error⟩
          | .error ex => .error ex
      | .error .unboundLocalError => .error .unboundLocalError

/-- `restore_objects_from_bucket` (source lines 87 to 100): pre-merge the
parameters, list every object, and run the per-object loop. -/
def restore_objects_from_bucket (defaults : RestoreParams)
    (params : Option RestoreParams)
    (store : S3Object → RestoreParams → RestoreCallResult)
    (pages : List ListPage) : Except RestoreRaise BulkRestoreResults :=
  restoreObjectsLoop defaults
    (mergeRestoreParams defaults (params.getD emptyRestoreParams)) store
    (list_all_objects_from_bucket pages)

/-- `is_object_restored` (source lines 102 to 105): fetch the response
headers of head_object and compare the x-amz-restore header (absent
headers read as none) against the ongoing-request marker. -/
def is_object_restored (headers : String → Option String) : Bool :=
  headers "x-amz-restore" != some "ongoing-request=\"true\""

/-- One observable event of the polling loop: a status check for a key
with its result, or a sleep performed while waiting on a key. -/
inductive PollEvent where
  | check (key : String) (restored : Bool)
  | sleep (key : String)
deriving DecidableEq

/-- The key an event belongs to. -/
def eventKey : PollEvent → String
  | .check k _ => k
  | .sleep k => k

/-- The inner `while True` loop of `are_objects_restored` (source lines
111 to 115) for one key: check the status; on restored break, otherwise
sleep and recheck the same key.  `checks` gives the store answer to the
n-th check of this key; the loop is run with fuel, returning the event
trace when the loop exits within the fuel. -/
def pollKey (key : String) (checks : Nat → Bool) : Nat → Nat → Option (List PollEvent)
  | 0, _ => none
  | fuel + 1, attempt =>
      if checks attempt then
        some [PollEvent.check key true]
      else
        match pollKey key checks fuel (attempt + 1) with
        | some rest => some (PollEvent.check key false :: PollEvent.sleep key :: rest)
        | none => none

/-- The outer loop of `are_objects_restored` over the listed objects, in
order; `store pos attempt` is the store answer to the attempt-th status
check of the object at listing position pos. -/
def areObjectsRestoredAux (store : Nat → Nat → Bool) (fuel : Nat) :
    Nat → List S3Object → Option (List PollEvent)
  | _, [] => some []
  | pos, obj :: rest =>
      match pollKey obj.key (store pos) fuel 0 with
      | none => none
      | some t =>
          match areObjectsRestoredAux store fuel (pos + 1) rest with
          | none => none
          | some ts => some (t ++ ts)

/-- `are_objects_restored` (source lines 107 to 116): list every object
and poll each one to completion in listing order, producing the full
event trace. -/
def are_objects_restored (store : Nat → Nat → Bool) (fuel : Nat)
    (pages : List ListPage) : Option (List PollEvent) :=
  areObjectsRestoredAux store fuel 0 (list_all_objects_from_bucket pages)

/-! ## Helper lemmas -/

/-- Merging the defaults into an already-merged record changes nothing. -/
lemma mergeRestoreParams_absorb (d p : RestoreParams) :
    mergeRestoreParams d (mergeRestoreParams d p) = mergeRestoreParams d p := by
  funext k
  cases hp : p k with
  | some v => simp [mergeRestoreParams, hp]
  | none => cases hd : d k <;> simp [mergeRestoreParams, hp, hd]

/-- One loop step of `pollKey` when the check answers restored. -/
lemma pollKey_step_true (key : String) (c : Nat → Bool) (fuel attempt : Nat)
    (h : c attempt = true) :
    pollKey key c (fuel + 1) attempt = some [PollEvent.check key true] := by
  simp [pollKey, h]

/-- One loop step of `pollKey` when the check answers not restored: a failed
check and a sleep are recorded and the same key is rechecked. -/
lemma pollKey_step_false (key : String) (c : Nat → Bool) (fuel attempt : Nat)
    (h : c attempt = false) :
    pollKey key c (fuel + 1) attempt =
      (pollKey key c fuel (attempt + 1)).map
        (fun rest => PollEvent.check key false :: PollEvent.sleep key :: rest) := by
  cases hr : pollKey key c fuel (attempt + 1) <;> simp [pollKey, h, hr]

/-- A key whose checks answer not-restored twice and then restored produces
exactly the five-event trace with two sleeps. -/
lemma pollKey_two_sleeps (key : String) (c : Nat → Bool) (fuel : Nat)
    (h0 : c 0 = false) (h1 : c 1 = false) (h2 : c 2 = true) :
    pollKey key c (fuel + 3) 0 =
      some [PollEvent.check key false, PollEvent.sleep key,
        PollEvent.check key false, PollEvent.sleep key,
        PollEvent.check key true] := by
  have e3 : fuel + 3 = (fuel + 2) + 1 := rfl
  have e2 : fuel + 2 = (fuel + 1) + 1 := rfl
  rw [e3, pollKey_step_false key c _ 0 h0, e2, pollKey_step_false key c _ 1 h1,
    pollKey_step_true key c fuel 2 h2]
  rfl

/-! ## Claim theorems -/

/-- Claim C1: for every ClientError raised by the store during
restore_object, an error code other than RestoreAlreadyInProgress raises
RestoreInProgressException, while the code RestoreAlreadyInProgress raises
the generic RestoreException carrying the error response payload (the
inverted mapping the spec deliberately preserves). -/
theorem restore_object_client_error_mapping (d : RestoreParams)
    (p : Option RestoreParams) (code errorResponse : String) :
    restore_object d p (fun _ => RestoreCallResult.clientError code errorResponse) =
      Except.error
        (if code = "RestoreAlreadyInProgress"
          then RestoreRaise.restoreException errorResponse
          else RestoreRaise.restoreInProgressException errorResponse) := by
  by_cases h : code = "RestoreAlreadyInProgress" <;>
    simp [restore_object, classifyRestoreCall, h]

/-- Claim C2 (code bug): on a store response with HTTP status 403 (over
400, no exception raised by the store), restore_object does not raise
RestoreException as the spec says: the logging call on the over-400 branch
evaluates the unbound local name e, so an UnboundLocalError is raised
before the raise statement is reached.  On status at most 400 it returns
normally. -/
theorem restore_object_status_over_400_unbound_local :
    restore_object emptyRestoreParams none
        (fun _ => RestoreCallResult.response ⟨403, "resp"⟩) =
      Except.error RestoreRaise.unboundLocalError ∧
    (∀ s, Except.error RestoreRaise.unboundLocalError ≠
      (Except.error (RestoreRaise.restoreException s) : Except RestoreRaise Unit)) ∧
    restore_object emptyRestoreParams none
        (fun _ => RestoreCallResult.response ⟨200, "ok"⟩) =
      Except.ok () := by
  refine ⟨rfl, fun s h => ?_, rfl⟩
  exact RestoreRaise.noConfusion (Except.error.inj h)

/-- Claim C6: is_object_restored returns false exactly when the
x-amz-restore header is present with the ongoing-request marker value; an
absent header yields true. -/
theorem is_object_restored_header_iff (headers : String → Option String) :
    (is_object_restored headers = false ↔
      headers "x-amz-restore" = some "ongoing-request=\"true\"") ∧
    (headers "x-amz-restore" = none → is_object_restored headers = true) := by
  constructor
  · simp [is_object_restored]
  · intro h
    simp [is_object_restored, h]

/-- Claim C9: restore_object consults the store exactly at the merge of the
default record with the per-call override record, and that merge is their
union with the override winning on every shared key: a key of the override
keeps the override value (also when the defaults bind it), a key only in
the defaults keeps the default value, and a key in neither record is
absent. -/
theorem restore_object_merged_params_union (d p : RestoreParams)
    (store : RestoreParams → RestoreCallResult) :
    restore_object d (some p) store =
      classifyRestoreCall (store (mergeRestoreParams d p)) ∧
    (∀ k v w, d k = some v → p k = some w → mergeRestoreParams d p k = some w) ∧
    (∀ k w, p k = some w → mergeRestoreParams d p k = some w) ∧
    (∀ k v, d k = some v → p k = none → mergeRestoreParams d p k = some v) ∧
    (∀ k, d k = none → p k = none → mergeRestoreParams d p k = none) := by
  refine ⟨rfl, ?_, ?_, ?_, ?_⟩ <;> intros <;> simp [mergeRestoreParams, *]

/-- Claim C10: merging with the defaults is idempotent, so the double merge
(restore_objects_from_bucket pre-merges, then restore_object merges again)
uses the same effective parameters as a single merge: restore_object
called with the pre-merged record behaves exactly as restore_object called
with the raw override record. -/
theorem mergeRestoreParams_idempotent (d p : RestoreParams)
    (store : RestoreParams → RestoreCallResult) :
    mergeRestoreParams d (mergeRestoreParams d p) = mergeRestoreParams d p ∧
    restore_object d (some (mergeRestoreParams d p)) store =
      restore_object d (some p) store := by
  refine ⟨mergeRestoreParams_absorb d p, ?_⟩
  show classifyRestoreCall (store (mergeRestoreParams d (mergeRestoreParams d p))) =
    classifyRestoreCall (store (mergeRestoreParams d p))
  rw [mergeRestoreParams_absorb]

/-- Claim C3 (code bug): the bulk path only catches
RestoreInProgressException and RestoreException, so the UnboundLocalError
raised by restore_object on an over-400 store response escapes
restore_objects_from_bucket, aborting the run: with a listing of the two
objects bad and good where restoring bad yields a 403 response,
the bulk call raises instead of returning an aggregate result, and good is
never processed. -/
theorem restore_objects_bucket_unbound_local_escape :
    restore_objects_from_bucket emptyRestoreParams none
        (fun o _ =>
          if o.key = "bad" then RestoreCallResult.response ⟨403, "resp"⟩
          else RestoreCallResult.response ⟨200, "ok"⟩)
        [⟨[⟨"bad"⟩, ⟨"good"⟩], false⟩] =
      Except.error RestoreRaise.unboundLocalError := rfl

/-- Claim C4: for a listing whose pages all report truncation except the
final one, list_all_objects_from_bucket yields exactly the concatenation of
the page contents, in store order — every object exactly once — and stops
at the first page that reports no truncation (any further store responses
are never requested). -/
theorem list_all_objects_pagination (front : List ListPage) (lastPage : ListPage)
    (extra : List ListPage)
    (hfront : ∀ pg ∈ front, pg.isTruncated = true)
    (hlast : lastPage.isTruncated = false) :
    list_all_objects_from_bucket (front ++ lastPage :: extra) =
      ((front ++ [lastPage]).map ListPage.contents).flatten := by
  induction front with
  | nil => simp [list_all_objects_from_bucket, hlast]
  | cons pg rest ih =>
      have hpg : pg.isTruncated = true := hfront pg (by simp)
      have hrest : ∀ q ∈ rest, q.isTruncated = true := fun q hq => hfront q (by simp [hq])
      simp [list_all_objects_from_bucket, hpg, ih hrest]

/-- Witness for claim C4: a concrete three-page store (pages of sizes 1, 2
and an unreachable trailing page) yields the three objects of the first
two pages, in order. -/
theorem list_all_objects_pagination_witness :
    list_all_objects_from_bucket
        [⟨[⟨"a"⟩], true⟩, ⟨[⟨"b"⟩, ⟨"c"⟩], false⟩, ⟨[⟨"z"⟩], true⟩] =
      ((([⟨[⟨"a"⟩], true⟩] : List ListPage) ++
        [(⟨[⟨"b"⟩, ⟨"c"⟩], false⟩ : ListPage)]).map ListPage.contents).flatten ∧
    list_all_objects_from_bucket
        [⟨[⟨"a"⟩], true⟩, ⟨[⟨"b"⟩, ⟨"c"⟩], false⟩, ⟨[⟨"z"⟩], true⟩] =
      [⟨"a"⟩, ⟨"b"⟩, ⟨"c"⟩] :=
  ⟨list_all_objects_pagination ([⟨[⟨"a"⟩], true⟩] : List ListPage)
      (⟨[⟨"b"⟩, ⟨"c"⟩], false⟩ : ListPage) ([⟨[⟨"z"⟩], true⟩] : List ListPage)
      (by simp) rfl,
    by decide⟩

/-- The per-object loop sorts every object into the bucket matching the
outcome of its store call, in listing order, when every outcome is one of
the three tags. -/
lemma restoreObjectsLoop_filter (d p : RestoreParams)
    (store : S3Object → RestoreParams → RestoreCallResult) :
    ∀ objs : List S3Object,
      (∀ obj ∈ objs,
        (restoreOutcomeOf (store obj (mergeRestoreParams d p))).isSome = true) →
      restoreObjectsLoop d (mergeRestoreParams d p) store objs =
        Except.ok
          ⟨objs.filter (fun o =>
              restoreOutcomeOf (store o (mergeRestoreParams d p)) ==
                some RestoreOutcome.successful),
            objs.filter (fun o =>
              restoreOutcomeOf (store o (mergeRestoreParams d p)) ==
                some RestoreOutcome.restoreInProgress),
            objs.filter (fun o =>
              restoreOutcomeOf (store o (mergeRestoreParams d p)) ==
                some RestoreOutcome.error)⟩ := by
  intro objs
  induction objs with
  | nil => intro _; simp [restoreObjectsLoop]
  | cons obj rest ih =>
      intro hall
      have hobj := hall obj (by simp)
      have hrest : ∀ o ∈ rest,
          (restoreOutcomeOf (store o (mergeRestoreParams d p))).isSome = true :=
        fun o ho => hall o (by simp [ho])
      have hro : restore_object d (some (mergeRestoreParams d p)) (store obj) =
          classifyRestoreCall (store obj (mergeRestoreParams d p)) := by
        show classifyRestoreCall
            (store obj (mergeRestoreParams d (mergeRestoreParams d p))) = _
        rw [mergeRestoreParams_absorb]
      cases hc : classifyRestoreCall (store obj (mergeRestoreParams d p)) with
      | ok u =>
          have ho : restoreOutcomeOf (store obj (mergeRestoreParams d p)) =
              some RestoreOutcome.successful := by simp [restoreOutcomeOf, hc]
          simp [restoreObjectsLoop, hro, hc, ih hrest, List.filter_cons, ho]
      | error err =>
          cases err with
          | restoreInProgressException s =>
              have ho : restoreOutcomeOf (store obj (mergeRestoreParams d p)) =
                  some RestoreOutcome.restoreInProgress := by
                simp [restoreOutcomeOf, hc]
              simp [restoreObjectsLoop, hro, hc, ih hrest, List.filter_cons, ho]
          | restoreException s =>
              have ho : restoreOutcomeOf (store obj (mergeRestoreParams d p)) =
                  some RestoreOutcome.error := by simp [restoreOutcomeOf, hc]
              simp [restoreObjectsLoop, hro, hc, ih hrest, List.filter_cons, ho]
          | unboundLocalError =>
              exfalso
              simp [restoreOutcomeOf, hc] at hobj

/-- The three outcome buckets partition the listed objects, so their sizes
sum to the listing size. -/
lemma outcome_filter_length (f : S3Object → Option RestoreOutcome) :
    ∀ objs : List S3Object, (∀ o ∈ objs, (f o).isSome = true) →
      (objs.filter (fun o => f o == some RestoreOutcome.successful)).length +
        (objs.filter (fun o => f o == some RestoreOutcome.restoreInProgress)).length +
        (objs.filter (fun o => f o == some RestoreOutcome.error)).length =
        objs.length := by
  intro objs
  induction objs with
  | nil => intro _; simp
  | cons obj rest ih =>
      intro hall
      have hobj := hall obj (by simp)
      have hrest : ∀ o ∈ rest, (f o).isSome = true :=
        fun o ho => hall o (by simp [ho])
      have hsum := ih hrest
      cases hfo : f obj with
      | none => rw [hfo] at hobj; simp at hobj
      | some tag =>
          cases tag <;> simp [List.filter_cons, hfo, beq_iff_eq] <;> omega

/-- Claim C5: whenever every listed object has one of the three per-object
restore outcomes, restore_objects_from_bucket returns the aggregate result
placing each listed object in exactly the bucket matching its outcome (the
buckets are the outcome-filtered listing, in listing order), and the three
bucket sizes sum to the number of listed objects. -/
theorem restore_objects_bucket_aggregation (d p : RestoreParams)
    (store : S3Object → RestoreParams → RestoreCallResult) (pages : List ListPage)
    (hall : ∀ obj ∈ list_all_objects_from_bucket pages,
      (restoreOutcomeOf (store obj (mergeRestoreParams d p))).isSome = true) :
    restore_objects_from_bucket d (some p) store pages =
      Except.ok
        ⟨(list_all_objects_from_bucket pages).filter (fun o =>
            restoreOutcomeOf (store o (mergeRestoreParams d p)) ==
              some RestoreOutcome.successful),
          (list_all_objects_from_bucket pages).filter (fun o =>
            restoreOutcomeOf (store o (mergeRestoreParams d p)) ==
              some RestoreOutcome.restoreInProgress),
          (list_all_objects_from_bucket pages).filter (fun o =>
            restoreOutcomeOf (store o (mergeRestoreParams d p)) ==
              some RestoreOutcome.error)⟩ ∧
    ((list_all_objects_from_bucket pages).filter (fun o =>
        restoreOutcomeOf (store o (mergeRestoreParams d p)) ==
          some RestoreOutcome.successful)).length +
      ((list_all_objects_from_bucket pages).filter (fun o =>
        restoreOutcomeOf (store o (mergeRestoreParams d p)) ==
          some RestoreOutcome.restoreInProgress)).length +
      ((list_all_objects_from_bucket pages).filter (fun o =>
        restoreOutcomeOf (store o (mergeRestoreParams d p)) ==
          some RestoreOutcome.error)).length =
      (list_all_objects_from_bucket pages).length :=
  ⟨restoreObjectsLoop_filter d p store (list_all_objects_from_bucket pages) hall,
    outcome_filter_length _ (list_all_objects_from_bucket pages) hall⟩

/-- A demonstration store for the claim C5 witness: three objects restore
successfully, two report an already-running restore (a ClientError whose
code is not RestoreAlreadyInProgress, hence RestoreInProgressException),
and one errors (a ClientError with code RestoreAlreadyInProgress, hence
RestoreException under the inverted mapping). -/
def bulkDemoStore : S3Object → RestoreParams → RestoreCallResult :=
  fun o _ =>
    if o.key = "e1" then RestoreCallResult.clientError "RestoreAlreadyInProgress" "err"
    else if o.key = "p1" ∨ o.key = "p2" then
      RestoreCallResult.clientError "SomeOtherCode" "err"
    else RestoreCallResult.response ⟨200, "ok"⟩

/-- The two-page listing of six objects for the claim C5 witness. -/
def bulkDemoPages : List ListPage :=
  [⟨[⟨"s1"⟩, ⟨"p1"⟩, ⟨"s2"⟩], true⟩, ⟨[⟨"e1"⟩, ⟨"p2"⟩, ⟨"s3"⟩], false⟩]

/-- Witness for claim C5: with 3 successful, 2 in-progress and 1 erroring
object, the aggregate result holds exactly those objects in the matching
buckets, 3 + 2 + 1 in total. -/
theorem restore_objects_bucket_aggregation_witness :
    restore_objects_from_bucket emptyRestoreParams (some emptyRestoreParams)
        bulkDemoStore bulkDemoPages =
      Except.ok ⟨[⟨"s1"⟩, ⟨"s2"⟩, ⟨"s3"⟩], [⟨"p1"⟩, ⟨"p2"⟩], [⟨"e1"⟩]⟩ := by
  have h := (restore_objects_bucket_aggregation emptyRestoreParams
    emptyRestoreParams bulkDemoStore bulkDemoPages (by decide)).1
  rw [h]
  rfl

/-- Claim C7: in a poll run whose listing starts with a given object, if
the first status check of that object reports restored, its whole segment
of the trace is that single check — one check, zero sleeps — before the
poller moves on to the rest; if the first two checks report not restored
and the third restored, its segment is check, sleep, check, sleep, check —
exactly two sleeps — before the poller moves on. -/
theorem are_objects_restored_check_sleep_counts
    (store : Nat → Nat → Bool) (fuel : Nat) (pages : List ListPage)
    (obj : S3Object) (rest : List S3Object)
    (hlist : list_all_objects_from_bucket pages = obj :: rest) :
    (store 0 0 = true →
      are_objects_restored store (fuel + 1) pages =
        (areObjectsRestoredAux store (fuel + 1) 1 rest).map
          (fun ts => PollEvent.check obj.key true :: ts)) ∧
    (store 0 0 = false → store 0 1 = false → store 0 2 = true →
      are_objects_restored store (fuel + 3) pages =
        (areObjectsRestoredAux store (fuel + 3) 1 rest).map
          (fun ts => PollEvent.check obj.key false :: PollEvent.sleep obj.key ::
            PollEvent.check obj.key false :: PollEvent.sleep obj.key ::
            PollEvent.check obj.key true :: ts)) := by
  constructor
  · intro h0
    unfold are_objects_restored
    rw [hlist]
    cases haux : areObjectsRestoredAux store (fuel + 1) 1 rest <;>
      simp [areObjectsRestoredAux, pollKey_step_true obj.key (store 0) fuel 0 h0, haux]
  · intro h0 h1 h2
    unfold are_objects_restored
    rw [hlist]
    cases haux : areObjectsRestoredAux store (fuel + 3) 1 rest <;>
      simp [areObjectsRestoredAux, pollKey_two_sleeps obj.key (store 0) fuel h0 h1 h2,
        haux]

/-- Witness for claim C7: a one-object listing polled against a store that
answers restored at once gives the one-check trace, and against a store
that answers restored only from the third check on gives the trace with
exactly two sleeps. -/
theorem are_objects_restored_check_sleep_counts_witness :
    are_objects_restored (fun _ _ => true) (0 + 1) [⟨[⟨"a"⟩], false⟩] =
      some [PollEvent.check "a" true] ∧
    are_objects_restored (fun _ n => decide (2 ≤ n)) (0 + 3) [⟨[⟨"a"⟩], false⟩] =
      some [PollEvent.check "a" false, PollEvent.sleep "a",
        PollEvent.check "a" false, PollEvent.sleep "a",
        PollEvent.check "a" true] :=
  ⟨(are_objects_restored_check_sleep_counts (fun _ _ => true) 0
      [⟨[⟨"a"⟩], false⟩] ⟨"a"⟩ [] rfl).1 rfl,
    (are_objects_restored_check_sleep_counts (fun _ n => decide (2 ≤ n)) 0
      [⟨[⟨"a"⟩], false⟩] ⟨"a"⟩ [] rfl).2 rfl rfl rfl⟩

/-- Every trace of polling one key holds only events for that key and ends
with the successful status check that breaks the loop. -/
lemma pollKey_spec (key : String) (c : Nat → Bool) :
    ∀ (fuel attempt : Nat) (t : List PollEvent),
      pollKey key c fuel attempt = some t →
      (∀ e ∈ t, eventKey e = key) ∧
      ∃ pre, t = pre ++ [PollEvent.check key true] := by
  intro fuel
  induction fuel with
  | zero => intro attempt t h; simp [pollKey] at h
  | succ n ih =>
      intro attempt t h
      cases hc : c attempt with
      | true =>
          rw [pollKey_step_true key c n attempt hc] at h
          injection h with h'
          subst h'
          refine ⟨?_, [], rfl⟩
          intro e he
          rw [List.mem_singleton] at he
          subst he
          rfl
      | false =>
          rw [pollKey_step_false key c n attempt hc] at h
          cases hr : pollKey key c n (attempt + 1) with
          | none => rw [hr] at h; simp at h
          | some r =>
              rw [hr] at h
              simp only [Option.map_some', Option.some.injEq] at h
              subst h
              obtain ⟨hkeys, pre, hpre⟩ := ih (attempt + 1) r hr
              refine ⟨?_, PollEvent.check key false :: PollEvent.sleep key :: pre, ?_⟩
              · intro e he
                simp only [List.mem_cons] at he
                rcases he with rfl | rfl | he
                · rfl
                · rfl
                · exact hkeys e he
              · rw [hpre]
                rfl

/-- The trace of the polling loop splits into one segment per listed
object, in listing order: each segment holds only events of its own
object and ends with the successful check of that object. -/
lemma areObjectsRestoredAux_segments :
    ∀ (objs : List S3Object) (store : Nat → Nat → Bool) (fuel pos : Nat)
      (tr : List PollEvent),
      areObjectsRestoredAux store fuel pos objs = some tr →
      ∃ segs : List (List PollEvent),
        tr = segs.flatten ∧ segs.length = objs.length ∧
        ∀ (i : Fin segs.length) (j : Fin objs.length), (i : Nat) = (j : Nat) →
          (∀ e ∈ segs.get i, eventKey e = (objs.get j).key) ∧
          ∃ pre, segs.get i = pre ++ [PollEvent.check (objs.get j).key true] := by
  intro objs
  induction objs with
  | nil =>
      intro store fuel pos tr h
      simp only [areObjectsRestoredAux] at h
      injection h with h'
      subst h'
      refine ⟨[], rfl, rfl, ?_⟩
      intro i
      exact absurd i.isLt (by simp)
  | cons obj rest ih =>
      intro store fuel pos tr h
      cases hpoll : pollKey obj.key (store pos) fuel 0 with
      | none => simp [areObjectsRestoredAux, hpoll] at h
      | some t =>
          cases haux : areObjectsRestoredAux store fuel (pos + 1) rest with
          | none => simp [areObjectsRestoredAux, hpoll, haux] at h
          | some ts =>
              have htr : tr = t ++ ts := by
                simp only [areObjectsRestoredAux, hpoll, haux] at h
                injection h with h'
                exact h'.symm
              obtain ⟨segs, hjoin, hlen, hprop⟩ := ih store fuel (pos + 1) ts haux
              obtain ⟨hkeys, pre0, hpre0⟩ :=
                pollKey_spec obj.key (store pos) fuel 0 t hpoll
              refine ⟨t :: segs, ?_, by simp [hlen], ?_⟩
              · rw [htr, List.flatten_cons, hjoin]
              · intro i j hij
                rcases i with ⟨iv, hi⟩
                rcases j with ⟨jv, hj⟩
                simp only [Fin.val_mk] at hij
                subst hij
                cases iv with
                | zero => exact ⟨hkeys, pre0, hpre0⟩
                | succ n =>
                    have hi' : n < segs.length := by
                      simp only [List.length_cons] at hi; omega
                    have hj' : n < rest.length := by
                      simp only [List.length_cons] at hj; omega
                    exact hprop ⟨n, hi'⟩ ⟨n, hj'⟩ rfl

/-- Claim C8: every completed run of are_objects_restored is one-object-
at-a-time: its trace is the concatenation of per-object segments in
listing order, each segment holding only status checks and sleeps of its
own object and ending with the check that reported restored, so no status
check of a later object ever happens before the current object reports
restored. -/
theorem are_objects_restored_sequential (store : Nat → Nat → Bool) (fuel : Nat)
    (pages : List ListPage) (tr : List PollEvent)
    (h : are_objects_restored store fuel pages = some tr) :
    ∃ segs : List (List PollEvent),
      tr = segs.flatten ∧
      segs.length = (list_all_objects_from_bucket pages).length ∧
      ∀ (i : Fin segs.length)
        (j : Fin (list_all_objects_from_bucket pages).length),
        (i : Nat) = (j : Nat) →
          (∀ e ∈ segs.get i,
            eventKey e = ((list_all_objects_from_bucket pages).get j).key) ∧
          ∃ pre, segs.get i =
            pre ++ [PollEvent.check
              ((list_all_objects_from_bucket pages).get j).key true] :=
  areObjectsRestoredAux_segments (list_all_objects_from_bucket pages)
    store fuel 0 tr h

/-- Witness for claim C8: a two-object listing polled against a store that
answers restored at once decomposes into the two singleton segments. -/
theorem are_objects_restored_sequential_witness :
    ∃ segs : List (List PollEvent),
      [PollEvent.check "a" true, PollEvent.check "b" true] = segs.flatten ∧
      segs.length =
        (list_all_objects_from_bucket [⟨[⟨"a"⟩, ⟨"b"⟩], false⟩]).length ∧
      ∀ (i : Fin segs.length)
        (j : Fin (list_all_objects_from_bucket [⟨[⟨"a"⟩, ⟨"b"⟩], false⟩]).length),
        (i : Nat) = (j : Nat) →
          (∀ e ∈ segs.get i,
            eventKey e =
              ((list_all_objects_from_bucket [⟨[⟨"a"⟩, ⟨"b"⟩], false⟩]).get j).key) ∧
          ∃ pre, segs.get i =
            pre ++ [PollEvent.check
              ((list_all_objects_from_bucket [⟨[⟨"a"⟩, ⟨"b"⟩], false⟩]).get j).key
              true] :=
  are_objects_restored_sequential (fun _ _ => true) 1 [⟨[⟨"a"⟩, ⟨"b"⟩], false⟩]
    [PollEvent.check "a" true, PollEvent.check "b" true] rfl

end S3Glacier
